import Mathlib

/-
Verification of the trax repository excerpt: the layer-introduction notebook
(src/trax/layers/intro.ipynb) and the configuration file
(src/trax/configs/lstm_seq2seq_wmt_ende.gin).

The notebook quotes the docstrings of the trax layer library (Layer, Serial,
Branch, Residual, init, signature) and exercises them on concrete inputs;
the library implementation itself is not part of the excerpt, so the layer
operations below are modelled from those quoted docstrings and from the
concrete input/output pairs recorded in the notebook's executed cells.
The .gin file is transcribed line by line.
-/

namespace Trax

/-- A layer, the basic building block: it computes a function from `n_in`
inputs to `n_out` outputs.  `forward` receives exactly the `n_in` items popped
off the data stack and returns the `n_out` outputs to be pushed back.
Modelled from the spec: the `Layer` base-class docstring quoted in
intro.ipynb (a layer "computes a function from zero or more inputs to zero or
more outputs"), with the data items of type `α`. -/
structure Layer (α : Type) where
  n_in : Nat
  n_out : Nat
  forward : List α → List α

/-- Modelled from the spec: the stack discipline of the `Serial` docstring in
intro.ipynb — applying a layer `k` to the data stack takes `k.n_in` items off
the top of the stack, calls `k` with those items as arguments, and pushes
`k`'s return values onto the stack. -/
def Layer.apply {α : Type} (k : Layer α) (stack : List α) : List α :=
  k.forward (stack.take k.n_in) ++ stack.drop k.n_in

/-- Modelled from the spec: `Serial` applies its sublayers serially, each one
interacting with the data stack as described in `Layer.apply`. -/
def serialForward {α : Type} (layers : List (Layer α)) (stack : List α) : List α :=
  layers.foldl (fun s k => k.apply s) stack

/-- Modelled from the spec: the `(n_in, n_out)` bookkeeping of a serial
combination — a running fold that tracks how many extra inputs each sublayer
needs beyond what is already on the stack, and the resulting stack depth. -/
def serialSignature {α : Type} (layers : List (Layer α)) : Nat × Nat :=
  layers.foldl
    (fun p k =>
      let extra := k.n_in - p.2
      (p.1 + extra, p.2 - k.n_in + k.n_out))
    (0, 0)

/-- Modelled from the spec: the `Serial` combinator of intro.ipynb — a layer
that applies its sublayers serially (by function composition), using stack
semantics to manage data for its sublayers. -/
def Serial {α : Type} (layers : List (Layer α)) : Layer α :=
  { n_in := (serialSignature layers).1
    n_out := (serialSignature layers).2
    forward := fun stack => serialForward layers stack }

/-- Modelled from the spec: the `Branch` combinator docstring in intro.ipynb —
it applies a list of layers in parallel to copies of the inputs; each layer is
applied to as many inputs from the stack as it needs, and their outputs are
successively combined on the stack. -/
def Branch {α : Type} (layers : List (Layer α)) : Layer α :=
  { n_in := layers.foldl (fun m k => max m k.n_in) 0
    n_out := (layers.map Layer.n_out).foldl (· + ·) 0
    forward := fun inputs => (layers.map (fun k => k.forward (inputs.take k.n_in))).flatten }

/-- A one-input, one-output layer computing the function `f`. -/
def layer1 {α : Type} (f : α → α) : Layer α :=
  { n_in := 1, n_out := 1
    forward := fun s => match s with
      | [a] => [f a]
      | _ => [] }

/-- A three-input, one-output layer computing the function `g`. -/
def layer3 {α : Type} (g : α → α → α → α) : Layer α :=
  { n_in := 3, n_out := 1
    forward := fun s => match s with
      | [a, b, c] => [g a b c]
      | _ => [] }

/-- A two-input, two-output layer computing the function `h`. -/
def layer22 {α : Type} (h : α → α → α × α) : Layer α :=
  { n_in := 2, n_out := 2
    forward := fun s => match s with
      | [a, b] => [(h a b).1, (h a b).2]
      | _ => [] }

/-- Modelled from the spec: the no-op layer that a `None` shortcut denotes in
`Residual` ("default None signals no-op (copy inputs)"): it copies its single
input through unchanged. -/
def noOp {α : Type} : Layer α :=
  { n_in := 1, n_out := 1, forward := fun s => s }

/-- Modelled from the spec: the `Add()` layer used by `Residual` — it combines
two streams into one by adding elementwise (`n_in = 2`, `n_out = 1`). -/
def addLayer {α : Type} [Add α] : Layer α :=
  { n_in := 2, n_out := 1
    forward := fun s => match s with
      | [a, b] => [a + b]
      | _ => [] }

/-- The `Residual` combinator, transcribed from the source code quoted in
intro.ipynb: with no shortcut keyword, `layer` is `layers[0]` when exactly one
layer is given and `Serial(layers)` otherwise, and the result is
`Serial(Branch(shortcut, layer), Add())` with the `None` shortcut standing for
the no-op copy. -/
def Residual {α : Type} [Add α] (layers : List (Layer α)) : Layer α :=
  let layer := match layers with
    | [l] => l
    | _ => Serial layers
  Serial [Branch [noOp, layer], addLayer]

/-! Concrete tensors: the notebook's examples use small integer matrices, which
we embed as lists of lists of integers. -/

/-- An integer matrix, the concrete tensor type of the notebook examples. -/
abbrev Mat := List (List ℤ)

/-- Modelled from the spec: Relu on one entry — `max(0, x)`, so each negative
entry maps to 0 and each nonnegative entry is unchanged. -/
def reluScalar (v : ℤ) : ℤ := max 0 v

/-- Relu applied elementwise to a matrix tensor. -/
def reluT (x : Mat) : Mat := x.map (fun row => row.map reluScalar)

/-- Modelled from the spec: the `tl.Relu()` layer of the notebook — a
weightless one-input, one-output layer applying `reluScalar` elementwise. -/
def reluLayer : Layer Mat := layer1 reluT

/-- The `times_100` function of notebook Example 6: multiply every entry of the
tensor by 100. -/
def times100T (x : Mat) : Mat := x.map (fun row => row.map (fun v => v * 100))

/-- The `tl.Fn("Times100", lambda x: x * 100.0)` layer of notebook Example 6. -/
def times100Layer : Layer Mat := layer1 times100T

/-- Elementwise sum of two matrix tensors. -/
def matAdd (x y : Mat) : Mat := x.zipWith (fun r s => r.zipWith (· + ·) s) y

instance : Add Mat := ⟨matAdd⟩

/-! Signatures, weights and initialization, modelled from the `init` and
`signature` docstrings quoted in intro.ipynb. -/

/-- The element dtypes appearing in the notebook's examples. -/
inductive Dtype
  | float32
  | int64
deriving DecidableEq

/-- A `ShapeDtype` instance: shape/dtype metadata describing a layer input. -/
structure ShapeDtype where
  shape : List Nat
  dtype : Dtype
deriving DecidableEq

/-- An object that has `shape` and `dtype` attributes (e.g. a numpy array),
from which a signature can be derived. -/
structure TensorMeta where
  shape : List Nat
  dtype : Dtype

/-- The argument of `signature`: a single shape/dtype-bearing object, or a
list/tuple of such objects. -/
inductive SigInput
  | one (t : TensorMeta)
  | many (ts : List TensorMeta)

/-- A signature: either a `ShapeDtype` instance or a tuple of `ShapeDtype`
instances. -/
inductive Signature
  | sd (s : ShapeDtype)
  | tup (ss : List ShapeDtype)
deriving DecidableEq

/-- Modelled from the spec: the `signature` function of module `shapes`,
quoted in intro.ipynb — it returns a `ShapeDtype` signature for the given
object (a tuple of them for a list/tuple input), reading the object's `shape`
and `dtype` attributes. -/
def signature : SigInput → Signature
  | .one t => .sd ⟨t.shape, t.dtype⟩
  | .many ts => .tup (ts.map (fun t => ⟨t.shape, t.dtype⟩))

/-- Layer weights: none (`EMPTY_WEIGHTS`), a (scale, bias) pair of rational
vectors as held by `LayerNorm`, or a list of sublayer weights as held by a
combinator. -/
inductive Weights
  | empty
  | pair (scale bias : List ℚ)
  | list (ws : List Weights)

/-- The weights of an uninitialized or weightless layer. -/
def EMPTY_WEIGHTS : Weights := .empty

/-- The (non-parameter) state of the layers in the excerpt, all of which are
stateless. -/
def EMPTY_STATE : Weights := .empty

/-- A layer viewed by the initialization machinery: a primitive layer knows how
to create new weights from an input signature; a combinator holds sublayers. -/
inductive WLayer
  | prim (nw : Signature → Weights)
  | comb (subs : List WLayer)

mutual

/-- Modelled from the spec: weight creation — a primitive layer returns weights
suitable for inputs with the given signature, and a combinator collects the
weights of its sublayers recursively. -/
def WLayer.new_weights : WLayer → Signature → Weights
  | .prim nw, sig => nw sig
  | .comb subs, sig => Weights.list (wlistWeights subs sig)

/-- Weight creation for a list of sublayers. -/
def wlistWeights : List WLayer → Signature → List Weights
  | [], _ => []
  | l :: ls, sig => WLayer.new_weights l sig :: wlistWeights ls sig

end

/-- Modelled from the spec: the `init` docstring quoted in intro.ipynb —
`init` initializes this layer and its sublayers recursively from the input
signature, once per layer instance, and returns a `(weights, state)` tuple in
which `weights` contains newly created weights on the first call and
`EMPTY_WEIGHTS` on all subsequent calls.  The `initDone` flag records whether
this instance has already been initialized; `init` also returns its updated
value. -/
def WLayer.init (l : WLayer) (initDone : Bool) (sig : Signature) :
    (Weights × Weights) × Bool :=
  if initDone then ((EMPTY_WEIGHTS, EMPTY_STATE), true)
  else ((l.new_weights sig, EMPTY_STATE), true)

/-- Modelled from the spec: `LayerNorm` weight creation as recorded in
notebook Example 4 — for an input signature of shape `(..., d)` the new
weights are a scale vector of `d` ones and a bias vector of `d` zeros. -/
def layerNormNewWeights : Signature → Weights
  | .sd s => .pair (List.replicate (s.shape.getLastD 0) 1)
      (List.replicate (s.shape.getLastD 0) 0)
  | .tup _ => .empty

/-- `tl.Relu()` seen by the initialization machinery: it holds no weights. -/
def reluW : WLayer := .prim (fun _ => .empty)

/-- `tl.LayerNorm()` seen by the initialization machinery. -/
def layerNormW : WLayer := .prim layerNormNewWeights

/-! The configuration file src/trax/configs/lstm_seq2seq_wmt_ende.gin,
transcribed line by line. -/

/-- A value on the right-hand side of a gin assignment: an integer, a decimal
number, a boolean, a quoted string, Python `None`, or a `@`-reference to a
named configurable function/class. -/
inductive GinValue
  | int (n : ℤ)
  | float (q : ℚ)
  | bool (b : Bool)
  | str (s : String)
  | pyNone
  | ref (name : String)
deriving DecidableEq

/-- Whether a gin value is a scalar (a number, boolean, string or `None`, as
opposed to a `@`-reference to a function or class). -/
def GinValue.isScalar : GinValue → Bool
  | .int _ => true
  | .float _ => true
  | .bool _ => true
  | .str _ => true
  | .pyNone => true
  | .ref _ => false

/-- Whether a gin value is a `@`-reference to a named configurable. -/
def GinValue.isRef : GinValue → Bool
  | .ref _ => true
  | _ => false

/-- One line of the .gin file: a `#` comment, a blank line, an import of a
framework module, or an assignment `key = value`. -/
inductive GinLine
  | comment (text : String)
  | blank
  | importLine (module : String)
  | assignment (key : String) (value : GinValue)
deriving DecidableEq

/-- Whether a gin line is a comment. -/
def GinLine.isComment : GinLine → Bool
  | .comment _ => true
  | _ => false

/-- Whether a gin line is blank. -/
def GinLine.isBlank : GinLine → Bool
  | .blank => true
  | _ => false

/-- Whether a gin line is a module import. -/
def GinLine.isImport : GinLine → Bool
  | .importLine _ => true
  | _ => false

/-- Whether a gin line is an assignment of a value to a named key. -/
def GinLine.isAssignment : GinLine → Bool
  | .assignment _ _ => true
  | _ => false

/-- The separator comment line used throughout the .gin file: a hash sign, a
space, and 78 equals signs. -/
def sepComment : GinLine := .comment ("# " ++ String.mk (List.replicate 78 (Char.ofNat 61)))

/-- The file src/trax/configs/lstm_seq2seq_wmt_ende.gin, line by line. -/
def ginFile : List GinLine := [
  .comment "# Copyright 2020 The Trax Authors.",
  .comment "#",
  .comment "# Licensed under the Apache License, Version 2.0 (the \"License\");",
  .comment "# you may not use this file except in compliance with the License.",
  .comment "# You may obtain a copy of the License at",
  .comment "#",
  .comment "#     http://www.apache.org/licenses/LICENSE-2.0",
  .comment "#",
  .comment "# Unless required by applicable law or agreed to in writing, software",
  .comment "# distributed under the License is distributed on an \"AS IS\" BASIS,",
  .comment "# WITHOUT WARRANTIES OR CONDITIONS OF ANY KIND, either express or implied.",
  .comment "# See the License for the specific language governing permissions and",
  .comment "# limitations under the License.",
  .blank,
  .importLine "trax.lr_schedules",
  .importLine "trax.models",
  .importLine "trax.optimizers",
  .importLine "trax.supervised.inputs",
  .importLine "trax.supervised.trainer_lib",
  .blank,
  .comment "# Parameters for batch_fn:",
  sepComment,
  .assignment "batch_fn.batch_size_per_device" (.int 64),
  .assignment "batch_fn.eval_batch_size" (.int 64),
  .assignment "batch_fn.max_eval_length" (.int 512),
  .assignment "batch_fn.bucket_length" (.int 32),
  .assignment "batch_fn.buckets_include_inputs_in_length" (.bool true),
  .blank,
  .comment "# Parameters for inputs:",
  sepComment,
  .assignment "inputs.data_dir" .pyNone,
  .assignment "inputs.dataset_name" (.str "t2t_translate_ende_wmt32k"),
  .blank,
  .comment "# Parameters for preprocess_fun:",
  sepComment,
  .assignment "shuffle_and_batch_data.preprocess_fun" (.ref "trax.supervised.inputs.wmt_preprocess"),
  .assignment "wmt_preprocess.max_length" (.int 256),
  .assignment "wmt_preprocess.max_eval_length" (.int 512),
  .blank,
  .comment "# Parameters for lr_schedules.warmup:",
  sepComment,
  .assignment "lr_schedules.warmup.max_value" (.float 0.001),
  .assignment "lr_schedules.warmup.n_warmup_steps" (.int 1000),
  .blank,
  .comment "# Parameters for Adam:",
  sepComment,
  .assignment "Adam.weight_decay_rate" (.float 0.0),
  .blank,
  .comment "# Parameters for train:",
  sepComment,
  .assignment "train.eval_frequency" (.int 1000),
  .assignment "train.eval_steps" (.int 10),
  .assignment "train.id_to_mask" (.int 0),
  .assignment "train.inputs" (.ref "trax.supervised.inputs.inputs"),
  .assignment "train.model" (.ref "trax.models.LSTMSeq2SeqAttn"),
  .assignment "train.optimizer" (.ref "trax.optimizers.Adam"),
  .assignment "train.lr_schedule" (.ref "lr_schedules.warmup"),
  .assignment "train.steps" (.int 250000),
  .blank,
  .comment "# Parameters for LSTMSeq2SeqAttn:",
  sepComment,
  .assignment "LSTMSeq2SeqAttn.d_model" (.int 1024),
  .assignment "LSTMSeq2SeqAttn.n_encoder_layers" (.int 2),
  .assignment "LSTMSeq2SeqAttn.n_decoder_layers" (.int 2),
  .assignment "LSTMSeq2SeqAttn.attention_dropout" (.float 0.2),
  .assignment "LSTMSeq2SeqAttn.n_attention_heads" (.int 8),
  .assignment "LSTMSeq2SeqAttn.input_vocab_size" (.int 33300),
  .assignment "LSTMSeq2SeqAttn.target_vocab_size" (.int 33300)]

/-- Looks up the value bound to a key in the .gin file. -/
def ginLookup (key : String) : Option GinValue :=
  (ginFile.filterMap (fun l => match l with
    | .assignment k v => if k = key then some v else Option.none
    | _ => Option.none)).head?

/-- The modules of the external training framework imported by the .gin
file. -/
def ginImports : List String :=
  ginFile.filterMap (fun l => match l with
    | .importLine m => some m
    | _ => Option.none)

/-! The layer-library operations invoked in the notebook's code cells, in
order of appearance: Example 1 calls `tl.Relu()`; Example 2 `tl.Concatenate()`;
Example 3 `tl.Concatenate(n_items=3, axis=0)`; Example 4 `tl.LayerNorm()`;
Example 5 `tl.Serial(tl.Relu(), tl.LayerNorm())`; Example 6 `tl.Relu()`,
`tl.Fn("Times100", lambda x: x * 100.0)` and `tl.Branch(relu, times_100)`. -/

/-- The names of the layer-library constructors invoked in the notebook's code
cells, in order of appearance. -/
def notebookLayerCalls : List String :=
  ["Relu", "Concatenate", "Concatenate", "LayerNorm",
   "Serial", "Relu", "LayerNorm",
   "Relu", "Fn", "Branch"]

/-- The layer-constructor names the spec lists as the pre-existing layer
composition API. -/
def specLayerNames : List String :=
  ["Serial", "Branch", "Concatenate", "Relu", "LayerNorm"]

/-- Whether the value assigned by a gin line (if it is an assignment) is a
scalar or a `@`-reference. -/
def lineValueScalarOrRef : GinLine → Bool
  | .assignment _ v => v.isScalar || v.isRef
  | _ => true

/-- C1: `Serial` moves data between its sublayers via a data stack — each
sublayer in order pops its `n_in` items off the top of the stack, is called
with those items as arguments, and its return values are pushed back onto the
stack; consequently, for one-input/one-output sublayers `f` and `g`,
`Serial(f, g)` applied to a single input `x` equals `g(f(x))`, e.g. with
`Relu` as the first sublayer and a layer-norm function `lnF` as the second. -/
theorem c1_serial_stack_composition {α : Type} (f g : α → α) (x : α)
    (k : Layer α) (ks : List (Layer α)) (stack : List α)
    (lnF : Mat → Mat) (m : Mat) :
    serialForward (k :: ks) stack
      = serialForward ks (k.forward (stack.take k.n_in) ++ stack.drop k.n_in) ∧
    (Serial [layer1 f, layer1 g]).forward [x] = [g (f x)] ∧
    Layer.apply (Serial [reluLayer, layer1 lnF]) [m] = [lnF (reluT m)] :=
  ⟨rfl, rfl, rfl⟩

/-- C2: `Branch` applies its layers in parallel to copies of the inputs, each
layer taking from the stack as many inputs as it needs, with outputs combined
successively: for F (1 in, 1 out), G (3 in, 1 out), H (2 in, 2 out),
`Branch(F, G, H)` takes 3 inputs a, b, c and gives the 4 outputs F(a),
G(a, b, c), h1, h2 where (h1, h2) = H(a, b); and `Branch(relu, times_100)` on
a single input x yields the two outputs relu(x) and 100*x. -/
theorem c2_branch_parallel {α : Type} (F : α → α) (G : α → α → α → α)
    (H : α → α → α × α) (a b c : α) (x : Mat) :
    (Branch [layer1 F, layer3 G, layer22 H]).n_in = 3 ∧
    (Branch [layer1 F, layer3 G, layer22 H]).n_out = 4 ∧
    Layer.apply (Branch [layer1 F, layer3 G, layer22 H]) [a, b, c]
      = [F a, G a b c, (H a b).1, (H a b).2] ∧
    Layer.apply (Branch [reluLayer, times100Layer]) [x] = [reluT x, times100T x] ∧
    times100T x = x.map (fun row => row.map (fun v => 100 * v)) := by
  refine ⟨rfl, rfl, rfl, rfl, ?_⟩
  simp [times100T, mul_comm]

/-- C3: the .gin configuration file binds the batch sizes, learning-rate
schedule parameters, optimizer weight decay, model depth/width, vocabulary
sizes and training step count stated in the spec, and binds the model,
optimizer and schedule keys to named functions/classes of the external
training framework whose modules the file imports. -/
theorem c3_gin_hyperparameters :
    ginLookup "batch_fn.batch_size_per_device" = some (.int 64) ∧
    ginLookup "batch_fn.eval_batch_size" = some (.int 64) ∧
    ginLookup "lr_schedules.warmup.max_value" = some (.float 0.001) ∧
    ginLookup "lr_schedules.warmup.n_warmup_steps" = some (.int 1000) ∧
    ginLookup "Adam.weight_decay_rate" = some (.float 0.0) ∧
    ginLookup "LSTMSeq2SeqAttn.n_encoder_layers" = some (.int 2) ∧
    ginLookup "LSTMSeq2SeqAttn.n_decoder_layers" = some (.int 2) ∧
    ginLookup "LSTMSeq2SeqAttn.d_model" = some (.int 1024) ∧
    ginLookup "LSTMSeq2SeqAttn.input_vocab_size" = some (.int 33300) ∧
    ginLookup "LSTMSeq2SeqAttn.target_vocab_size" = some (.int 33300) ∧
    ginLookup "train.steps" = some (.int 250000) ∧
    ginLookup "train.model" = some (.ref "trax.models.LSTMSeq2SeqAttn") ∧
    ginLookup "train.optimizer" = some (.ref "trax.optimizers.Adam") ∧
    ginLookup "train.lr_schedule" = some (.ref "lr_schedules.warmup") ∧
    ginImports = ["trax.lr_schedules", "trax.models", "trax.optimizers",
      "trax.supervised.inputs", "trax.supervised.trainer_lib"] := by
  and_intros <;> rfl

/-- C4 counterexample: the claim "every assignment line assigns a scalar
value" fails — the line `train.model = @trax.models.LSTMSeq2SeqAttn` is an
assignment in the .gin file whose value is a `@`-reference, not a scalar. -/
theorem c4_counterexample :
    GinLine.assignment "train.model" (.ref "trax.models.LSTMSeq2SeqAttn") ∈ ginFile ∧
    GinValue.isScalar (.ref "trax.models.LSTMSeq2SeqAttn") = false := by
  exact ⟨by decide, rfl⟩

/-- C4 amended: every assignment line of the .gin file assigns either a scalar
value (number, boolean, string or None) or a `@`-reference to a named
configurable function/class. -/
theorem c4_amended_scalar_or_ref :
    ∀ l, l ∈ ginFile → lineValueScalarOrRef l = true := by
  decide

/-- C4 witness: the amended statement applied to the line
`train.steps = 250000`. -/
theorem c4_amended_witness :
    lineValueScalarOrRef (.assignment "train.steps" (.int 250000)) = true :=
  c4_amended_scalar_or_ref (.assignment "train.steps" (.int 250000)) (by decide)

/-- C5 counterexample: the notebook also calls `tl.Fn` (Example 6 builds
`times_100` with `tl.Fn("Times100", lambda x: x * 100.0)`), a layer
constructor outside the set Serial, Branch, Concatenate, Relu, LayerNorm. -/
theorem c5_counterexample :
    "Fn" ∈ notebookLayerCalls ∧ "Fn" ∉ specLayerNames := by
  decide

/-- C5 amended: every layer-library operation invoked in the notebook's code
cells is one of Serial, Branch, Concatenate, Relu, LayerNorm or the
layer-creating function Fn. -/
theorem c5_amended_calls :
    ∀ n, n ∈ notebookLayerCalls → n ∈ ("Fn" :: specLayerNames) := by
  decide

/-- C5 witness: the amended statement applied to the call `tl.Serial(...)`. -/
theorem c5_amended_witness : "Serial" ∈ ("Fn" :: specLayerNames) :=
  c5_amended_calls "Serial" (by decide)

/-- C6: a layer computes a function from `n_in` inputs to `n_out` outputs and
holds weights only optionally — Relu has n_in = 1 and n_out = 1, creates no
weights, and can be called on input data without initialization, while
LayerNorm initialized on a signature of shape (3, 5) float32 holds the weight
pair (scale vector of five ones, bias vector of five zeros). -/
theorem c6_layer_properties (sig : Signature) (x : Mat) :
    reluLayer.n_in = 1 ∧
    reluLayer.n_out = 1 ∧
    reluW.new_weights sig = EMPTY_WEIGHTS ∧
    Layer.apply reluLayer [x] = [reluT x] ∧
    layerNormW.new_weights (.sd ⟨[3, 5], .float32⟩)
      = .pair [1, 1, 1, 1, 1] [0, 0, 0, 0, 0] := by
  refine ⟨rfl, rfl, ?_, rfl, ?_⟩ <;>
    simp [WLayer.new_weights, reluW, layerNormW, layerNormNewWeights,
      EMPTY_WEIGHTS, List.getLastD]

/-- C7: `signature` returns a `ShapeDtype` instance for an object with shape
and dtype attributes (a tuple of instances for a list input), and `init`
initializes a layer and its sublayers recursively from that metadata,
returning a (weights, state) tuple whose weights are newly created on the
first call and EMPTY_WEIGHTS on all subsequent calls. -/
theorem c7_signature_and_init (t : TensorMeta) (ts : List TensorMeta)
    (l : WLayer) (sig : Signature) :
    signature (.one t) = .sd ⟨t.shape, t.dtype⟩ ∧
    signature (.many ts) = .tup (ts.map (fun u => ⟨u.shape, u.dtype⟩)) ∧
    WLayer.init l false sig = ((l.new_weights sig, EMPTY_STATE), true) ∧
    WLayer.init l true sig = ((EMPTY_WEIGHTS, EMPTY_STATE), true) ∧
    WLayer.new_weights (.comb [reluW, layerNormW]) sig
      = .list [EMPTY_WEIGHTS, layerNormNewWeights sig] := by
  refine ⟨rfl, rfl, ?_, ?_, ?_⟩
  · simp [WLayer.init]
  · simp [WLayer.init]
  · simp [WLayer.new_weights, wlistWeights, reluW, layerNormW, EMPTY_WEIGHTS]

/-- C8 counterexample: the claim "every non-comment, non-blank line of the
.gin file is an assignment" fails — the line `import trax.lr_schedules` is
neither a comment nor blank nor an assignment. -/
theorem c8_counterexample :
    GinLine.importLine "trax.lr_schedules" ∈ ginFile ∧
    (GinLine.importLine "trax.lr_schedules").isComment = false ∧
    (GinLine.importLine "trax.lr_schedules").isBlank = false ∧
    (GinLine.importLine "trax.lr_schedules").isAssignment = false := by
  exact ⟨by decide, rfl, rfl, rfl⟩

/-- C8 amended: every non-comment, non-blank line of the .gin file is either a
module import or an assignment of a value to a named key; the file remains
declarative key=value text plus imports, not a protocol or program. -/
theorem c8_amended_line_shape :
    ∀ l, l ∈ ginFile → l.isComment = false → l.isBlank = false →
      (l.isImport || l.isAssignment) = true := by
  decide

/-- C8 witness: the amended statement applied to the line
`train.steps = 250000`. -/
theorem c8_amended_witness :
    ((GinLine.assignment "train.steps" (GinValue.int 250000)).isImport ||
      (GinLine.assignment "train.steps" (GinValue.int 250000)).isAssignment) = true :=
  c8_amended_line_shape (.assignment "train.steps" (.int 250000))
    (by decide) rfl rfl

set_option maxHeartbeats 2000000

/-- C9: `Residual(*layers)` with no shortcut equals
`Serial(Branch(noop, layer), Add())` with `layer = layers[0]` for a single
layer and `Serial(layers)` otherwise; `Branch(noop, layer)` has n_in = 1 and
n_out = 2, `Add()` has n_in = 2 and n_out = 1, and Residual applied to a
single input stream returns the elementwise sum of the input and the layer
series applied to it. -/
theorem c9_residual_structure {α : Type} [Add α] (f g : α → α) (y : α) (x : Mat) :
    Residual [layer1 f] = Serial [Branch [noOp, layer1 f], addLayer] ∧
    Residual [layer1 f, layer1 g]
      = Serial [Branch [noOp, Serial [layer1 f, layer1 g]], addLayer] ∧
    (Branch [noOp, layer1 f]).n_in = 1 ∧
    (Branch [noOp, layer1 f]).n_out = 2 ∧
    (addLayer : Layer α).n_in = 2 ∧
    (addLayer : Layer α).n_out = 1 ∧
    Layer.apply (Residual [layer1 f]) [y] = [y + f y] ∧
    Layer.apply (Residual [layer1 f, layer1 g]) [y] = [y + g (f y)] ∧
    Layer.apply (Residual [reluLayer]) [x] = [matAdd x (reluT x)] := by
  and_intros <;> rfl

/-- C10: Relu is a weightless one-input, one-output layer computing
max(0, x) elementwise — each negative entry maps to 0 and each nonnegative
entry is unchanged — and on the notebook's example input
[[-2, -1, 0, 1, 2], [-20, -10, 0, 10, 20]] it returns
[[0, 0, 0, 1, 2], [0, 0, 0, 10, 20]]. -/
theorem c10_relu_elementwise (x : Mat) (v : ℤ) :
    reluLayer.n_in = 1 ∧
    reluLayer.n_out = 1 ∧
    reluT x = x.map (fun row => row.map (fun u => max 0 u)) ∧
    (v < 0 → reluScalar v = 0) ∧
    (0 ≤ v → reluScalar v = v) ∧
    Layer.apply reluLayer [[[-2, -1, 0, 1, 2], [-20, -10, 0, 10, 20]]]
      = [[[0, 0, 0, 1, 2], [0, 0, 0, 10, 20]]] := by
  refine ⟨rfl, rfl, rfl, ?_, ?_, by decide⟩
  · intro h
    simp [reluScalar, max_eq_left h.le]
  · intro h
    simp [reluScalar, max_eq_right h]

/-- C10 witness: the elementwise description evaluated at the concrete entries
-7 (negative, maps to 0) and 5 (nonnegative, unchanged). -/
theorem c10_relu_witness : reluScalar (-7) = 0 ∧ reluScalar 5 = 5 :=
  ⟨(c10_relu_elementwise [] (-7)).2.2.2.1 (by decide),
   (c10_relu_elementwise [] 5).2.2.2.2.1 (by decide)⟩

end Trax
